import Mathlib

/-!
A composed asynchronous wait operation: `my_async_thing_op` and `my_async_thing`.

Shallow embedding of `src/main.cpp`.  The operation object is a record, an
invocation of `operator()` is a function from the record and the delivered
`error_code` to the record afterwards together with the list of calls made
into the asio runtime (`timer_.async_wait`, `asio::post`).

The library types the source uses (`boost::system::error_code`, executors,
`asio::executor_work_guard`, `asio::steady_timer`,
`asio::get_associated_executor`) are modelled by their documented behaviour.
-/

namespace AsyncThing

/-! ## Library types -/

/-- Identity of a `boost::system::error_category`: the two built-in categories
and user-defined ones, told apart by an identifier. -/
inductive error_category where
  | system
  | generic
  | user (id : Nat)
  deriving DecidableEq, Repr

/-- A `boost::system::error_code`: an integer value and the category it
belongs to.  Two error codes are equal when both components agree. -/
structure error_code where
  value : Int
  category : error_category
  deriving DecidableEq, Repr

/-- The default constructed `error_code()`: value `0` in the system category. -/
def error_code.default : error_code :=
  { value := 0, category := error_category.system }

/-- The value of `ECANCELED` in `<errno.h>` (Linux). -/
def ECANCELED : Int := 125

/-- The code `asio::error::operation_aborted` converts to when compared with an
`error_code`: `make_error_code` gives `ECANCELED` in the system category. -/
def operation_aborted : error_code :=
  { value := ECANCELED, category := error_category.system }

/-- The member `error_category::failed(ev)`.  The built-in categories report
failure for every value except `0`; a user category may override the member,
so its answer is taken from `userFailed`, indexed by the category identifier. -/
def error_category.failed (userFailed : Nat → Int → Bool) :
    error_category → Int → Bool
  | error_category.system, ev => ev != 0
  | error_category.generic, ev => ev != 0
  | error_category.user id, ev => userFailed id ev

/-- The conversion of an `error_code` to `bool`, as in `if (ec)`: true when the
code signals a failure. -/
def error_code.failed (userFailed : Nat → Int → Bool) (ec : error_code) : Bool :=
  ec.category.failed userFailed ec.value

/-- An executor, identified by the execution context it submits work to. -/
structure Executor where
  context : Nat
  deriving DecidableEq, Repr

/-- The timer `asio::steady_timer`, as far as the operation uses it: its
identity and the executor `get_executor()` returns. -/
structure steady_timer where
  id : Nat
  executor : Executor
  deriving DecidableEq, Repr

/-- The member `steady_timer::get_executor()`. -/
def steady_timer.get_executor (t : steady_timer) : Executor :=
  t.executor

/-- An `asio::executor_work_guard`: the executor it is bound to and whether it
still owns outstanding work on it. -/
structure executor_work_guard where
  executor_ : Executor
  owns_ : Bool
  deriving DecidableEq, Repr

/-- The constructor `executor_work_guard(e)`: binds to `e` and starts owning
work on it. -/
def executor_work_guard.make (e : Executor) : executor_work_guard :=
  { executor_ := e, owns_ := true }

/-- The member `executor_work_guard::get_executor()`. -/
def executor_work_guard.get_executor (g : executor_work_guard) : Executor :=
  g.executor_

/-- A completion handler of signature `void(error_code, bool)`: its identity
and the executor it declares as associated, when it declares one. -/
structure BoolHandler where
  id : Nat
  associated : Option Executor
  deriving DecidableEq, Repr

/-- The function `asio::get_associated_executor(handler, candidate)`: the
executor the handler declares, and the candidate when it declares none. -/
def get_associated_executor (handler : BoolHandler) (candidate : Executor) :
    Executor :=
  match handler.associated with
  | some e => e
  | none => candidate

/-! ## Calls into the runtime -/

/-- What an invocation of the operation asks of the runtime.

* `async_wait t`: `t.async_wait(std::move(*this))`, a wait on the timer with the
  operation as its callback;
* `post ex h ec result`: `asio::post(ex, append(std::move(h), ec, result))`, the
  handler with `(ec, result)` appended, queued on `ex` as a unit of work of its
  own; `h` is `none` when the slot it was moved out of had been moved from
  before;
* `invoke h ec result`: a direct call `h(ec, result)` on the current stack. -/
inductive Effect where
  | async_wait (t : steady_timer)
  | post (ex : Executor) (h : Option BoolHandler) (ec : error_code) (result : Bool)
  | invoke (h : Option BoolHandler) (ec : error_code) (result : Bool)
  deriving DecidableEq, Repr

/-! ## The operation -/

/-- The anonymous enumeration of `state_`. -/
inductive State where
  | init
  | waiting
  deriving DecidableEq, Repr

/-- The data members of `my_async_thing_op`.  `handler_` is `none` once
`std::move(handler_)` has handed the handler on. -/
structure my_async_thing_op where
  timer_ : steady_timer
  timer_wg_ : executor_work_guard
  wg_ : executor_work_guard
  handler_ : Option BoolHandler
  state_ : State
  deriving DecidableEq, Repr

/-- The constructor `my_async_thing_op(timer, e, handler)`, with the default
member initialisers of `timer_wg_` and `state_`. -/
def my_async_thing_op.construct (timer : steady_timer) (e : Executor)
    (handler : BoolHandler) : my_async_thing_op :=
  { timer_ := timer
    timer_wg_ := executor_work_guard.make timer.get_executor
    wg_ := executor_work_guard.make e
    handler_ := some handler
    state_ := State.init }

/-- The member `get_executor()`. -/
def my_async_thing_op.get_executor (op : my_async_thing_op) : Executor :=
  op.wg_.get_executor

/-- The private member `complete(ec, result)`: appends `(ec, result)` to the
handler moved out of `handler_` and posts the outcome to the executor of `wg_`. -/
def my_async_thing_op.complete (op : my_async_thing_op) (ec : error_code)
    (result : Bool) : my_async_thing_op × List Effect :=
  ({ op with handler_ := none },
   [Effect.post op.wg_.get_executor op.handler_ ec result])

/-- The member `operator()(error_code ec)`.  In state `init` the operation is
moved into the wait it starts on the timer; the record returned is that moved
operation, the one the timer calls back. -/
def my_async_thing_op.call (userFailed : Nat → Int → Bool)
    (op : my_async_thing_op) (ec : error_code) :
    my_async_thing_op × List Effect :=
  match op.state_ with
  | State.init =>
    ({ op with state_ := State.waiting }, [Effect.async_wait op.timer_])
  | State.waiting =>
    if ec.failed userFailed then
      if ec = operation_aborted then
        op.complete error_code.default false
      else
        op.complete ec false
    else
      op.complete ec true

/-- The initiation lambda of `my_async_thing(timer, token)`, applied to the
completion handler made from the token: picks the executor, constructs the
operation and invokes it once with the default argument `error_code()`. -/
def my_async_thing (userFailed : Nat → Int → Bool) (timer : steady_timer)
    (handler : BoolHandler) : my_async_thing_op × List Effect :=
  let exec := get_associated_executor handler timer.get_executor
  let op := my_async_thing_op.construct timer exec handler
  op.call userFailed error_code.default

/-! ## Runs and observations -/

/-- Invokes the operation once for each delivered error code, in order, and
collects the calls made into the runtime. -/
def run (userFailed : Nat → Int → Bool) :
    my_async_thing_op → List error_code → my_async_thing_op × List Effect
  | op, [] => (op, [])
  | op, ec :: rest =>
    let r := op.call userFailed ec
    let s := run userFailed r.1 rest
    (s.1, r.2 ++ s.2)

/-- The `(ec, result)` pairs of the posts in a list of runtime calls. -/
def posted : List Effect → List (error_code × Bool)
  | [] => []
  | Effect.post _ _ ec result :: rest => (ec, result) :: posted rest
  | _ :: rest => posted rest

/-- Number of times a handler is scheduled by `asio::post`. -/
def posts (es : List Effect) : Nat :=
  (posted es).length

/-- Number of waits started on a timer. -/
def waits : List Effect → Nat
  | [] => 0
  | Effect.async_wait _ :: rest => waits rest + 1
  | _ :: rest => waits rest

/-- Number of direct calls of a handler. -/
def invokes : List Effect → Nat
  | [] => 0
  | Effect.invoke _ _ _ :: rest => invokes rest + 1
  | _ :: rest => invokes rest

/-- Number of times the given handler itself is scheduled: the posts that
carry `handler`, not a moved-from slot and not another handler. -/
def scheduled (handler : BoolHandler) : List Effect → Nat
  | [] => 0
  | Effect.post _ (some h) _ _ :: rest =>
    (if h = handler then 1 else 0) + scheduled handler rest
  | _ :: rest => scheduled handler rest

/-! ## Basic facts about the library model -/

theorem default_not_failed (userFailed : Nat → Int → Bool) :
    error_code.default.failed userFailed = false := by
  rfl

theorem operation_aborted_failed (userFailed : Nat → Int → Bool) :
    operation_aborted.failed userFailed = true := by
  rfl

theorem default_ne_operation_aborted : error_code.default ≠ operation_aborted := by
  decide

/-! ## One invocation -/

theorem call_init (userFailed : Nat → Int → Bool) (op : my_async_thing_op)
    (ec : error_code) (hs : op.state_ = State.init) :
    op.call userFailed ec =
      ({ op with state_ := State.waiting }, [Effect.async_wait op.timer_]) := by
  simp [my_async_thing_op.call, hs]

theorem call_waiting (userFailed : Nat → Int → Bool) (op : my_async_thing_op)
    (ec : error_code) (hs : op.state_ = State.waiting) :
    op.call userFailed ec =
      if ec.failed userFailed then
        if ec = operation_aborted then op.complete error_code.default false
        else op.complete ec false
      else op.complete ec true := by
  simp [my_async_thing_op.call, hs]

theorem call_aborted (userFailed : Nat → Int → Bool) (op : my_async_thing_op)
    (hs : op.state_ = State.waiting) :
    op.call userFailed operation_aborted = op.complete error_code.default false := by
  rw [call_waiting userFailed op _ hs, operation_aborted_failed]
  simp

theorem call_failure (userFailed : Nat → Int → Bool) (op : my_async_thing_op)
    (ec : error_code) (hs : op.state_ = State.waiting)
    (hf : ec.failed userFailed = true) (hn : ec ≠ operation_aborted) :
    op.call userFailed ec = op.complete ec false := by
  rw [call_waiting userFailed op _ hs]
  simp [hf, hn]

theorem call_expiry (userFailed : Nat → Int → Bool) (op : my_async_thing_op)
    (ec : error_code) (hs : op.state_ = State.waiting)
    (hf : ec.failed userFailed = false) :
    op.call userFailed ec = op.complete ec true := by
  rw [call_waiting userFailed op _ hs]
  simp [hf]

/-- In state `waiting` every invocation is one call of `complete`. -/
theorem call_waiting_complete (userFailed : Nat → Int → Bool)
    (op : my_async_thing_op) (ec : error_code) (hs : op.state_ = State.waiting) :
    ∃ e r, op.call userFailed ec = op.complete e r := by
  by_cases hf : ec.failed userFailed = true
  · by_cases hn : ec = operation_aborted
    · subst hn
      exact ⟨_, _, call_aborted userFailed op hs⟩
    · exact ⟨_, _, call_failure userFailed op ec hs hf hn⟩
  · have hf0 : ec.failed userFailed = false := by simpa using hf
    exact ⟨_, _, call_expiry userFailed op ec hs hf0⟩

theorem call_state (userFailed : Nat → Int → Bool) (op : my_async_thing_op)
    (ec : error_code) : (op.call userFailed ec).1.state_ = State.waiting := by
  cases hs : op.state_ with
  | init => rw [call_init userFailed op ec hs]
  | waiting =>
    obtain ⟨e, r, h⟩ := call_waiting_complete userFailed op ec hs
    rw [h]
    exact hs

theorem call_guards (userFailed : Nat → Int → Bool) (op : my_async_thing_op)
    (ec : error_code) :
    (op.call userFailed ec).1.timer_wg_ = op.timer_wg_ ∧
      (op.call userFailed ec).1.wg_ = op.wg_ := by
  cases hs : op.state_ with
  | init => rw [call_init userFailed op ec hs]; exact ⟨rfl, rfl⟩
  | waiting =>
    obtain ⟨e, r, h⟩ := call_waiting_complete userFailed op ec hs
    rw [h]
    exact ⟨rfl, rfl⟩

theorem posts_append (xs ys : List Effect) : posts (xs ++ ys) = posts xs + posts ys := by
  induction xs with
  | nil => simp [posts, posted]
  | cons x xs ih =>
    cases x <;> simp [posts, posted] at ih ⊢ <;> omega

theorem waits_append (xs ys : List Effect) : waits (xs ++ ys) = waits xs + waits ys := by
  induction xs with
  | nil => simp [waits]
  | cons x xs ih =>
    cases x <;> simp [waits] at ih ⊢ <;> omega

theorem posts_call_waiting (userFailed : Nat → Int → Bool) (op : my_async_thing_op)
    (ec : error_code) (hs : op.state_ = State.waiting) :
    posts (op.call userFailed ec).2 = 1 := by
  obtain ⟨e, r, h⟩ := call_waiting_complete userFailed op ec hs
  rw [h]
  rfl

/-! ## The outcome reported for each kind of delivered error code -/

/-- C1: in state `waiting`, an invocation with the cancellation code
`operation_aborted` posts the handler with `(error_code(), false)`: the error
component signals no error and is not the cancellation code. -/
theorem cancellation_posts_no_error_false (userFailed : Nat → Int → Bool)
    (op : my_async_thing_op) (ec : error_code)
    (hs : op.state_ = State.waiting) (hc : ec = operation_aborted) :
    (op.call userFailed ec).2 =
        [Effect.post op.wg_.get_executor op.handler_ error_code.default false] ∧
      posted (op.call userFailed ec).2 = [(error_code.default, false)] ∧
      error_code.default.failed userFailed = false ∧
      ∀ r ∈ posted (op.call userFailed ec).2, r.1 ≠ operation_aborted := by
  subst hc
  rw [call_aborted userFailed op hs]
  refine ⟨rfl, rfl, rfl, ?_⟩
  intro r hr
  have hr1 : r = (error_code.default, false) := by
    simpa [my_async_thing_op.complete, posted] using hr
  rw [hr1]
  exact default_ne_operation_aborted

theorem cancellation_posts_no_error_false_witness :
    (my_async_thing (fun _ _ => false) ⟨1, ⟨2⟩⟩ ⟨3, none⟩).1.state_ = State.waiting ∧
      posted (((my_async_thing (fun _ _ => false) ⟨1, ⟨2⟩⟩ ⟨3, none⟩).1).call
        (fun _ _ => false) ⟨125, error_category.system⟩).2 =
        [(⟨0, error_category.system⟩, false)] :=
  ⟨by decide,
   (cancellation_posts_no_error_false (fun _ _ => false)
      (my_async_thing (fun _ _ => false) ⟨1, ⟨2⟩⟩ ⟨3, none⟩).1
      ⟨125, error_category.system⟩ (by decide) (by decide)).2.1⟩

/-- C2: in state `waiting`, an invocation with an error code that signals a
failure and is not `operation_aborted` posts the handler with `(ec, false)`,
where `ec` is the delivered code, value and category unchanged. -/
theorem failure_posts_same_error_false (userFailed : Nat → Int → Bool)
    (op : my_async_thing_op) (ec : error_code)
    (hs : op.state_ = State.waiting)
    (hf : ec.failed userFailed = true) (hn : ec ≠ operation_aborted) :
    (op.call userFailed ec).2 =
        [Effect.post op.wg_.get_executor op.handler_ ec false] ∧
      posted (op.call userFailed ec).2 = [(ec, false)] := by
  rw [call_failure userFailed op ec hs hf hn]
  exact ⟨rfl, rfl⟩

theorem failure_posts_same_error_false_witness :
    posted (((my_async_thing (fun _ _ => false) ⟨1, ⟨2⟩⟩ ⟨3, none⟩).1).call
        (fun _ _ => false) ⟨9, error_category.generic⟩).2 =
      [(⟨9, error_category.generic⟩, false)] :=
  (failure_posts_same_error_false (fun _ _ => false)
    (my_async_thing (fun _ _ => false) ⟨1, ⟨2⟩⟩ ⟨3, none⟩).1
    ⟨9, error_category.generic⟩ (by decide) (by decide) (by decide)).2

/-- C3: in state `waiting`, an invocation with an error code that signals no
error posts the handler with `(ec, true)`, whose error component is the
delivered code and so signals no error. -/
theorem expiry_posts_no_error_true (userFailed : Nat → Int → Bool)
    (op : my_async_thing_op) (ec : error_code)
    (hs : op.state_ = State.waiting) (hf : ec.failed userFailed = false) :
    (op.call userFailed ec).2 =
        [Effect.post op.wg_.get_executor op.handler_ ec true] ∧
      ∃ e, posted (op.call userFailed ec).2 = [(e, true)] ∧
        e.failed userFailed = false := by
  rw [call_expiry userFailed op ec hs hf]
  exact ⟨rfl, ec, rfl, hf⟩

theorem expiry_posts_no_error_true_witness :
    (((my_async_thing (fun _ _ => false) ⟨1, ⟨2⟩⟩ ⟨3, none⟩).1).call
        (fun _ _ => false) ⟨0, error_category.system⟩).2 =
      [Effect.post ⟨2⟩ (some ⟨3, none⟩) ⟨0, error_category.system⟩ true] :=
  (expiry_posts_no_error_true (fun _ _ => false)
    (my_async_thing (fun _ _ => false) ⟨1, ⟨2⟩⟩ ⟨3, none⟩).1
    ⟨0, error_category.system⟩ (by decide) (by decide)).1

/-- C7: for every error code delivered in state `waiting` exactly one pair
`(e, s)` is posted, and the outcome can be read back from it: `e` signals no
error and `s` is false exactly for the cancellation code; `e` signals an error
and `s` is false exactly for a failure other than cancellation; `e` signals no
error and `s` is true exactly for an error code that signals no error; and `s`
is never true together with an `e` that signals an error. -/
theorem outcome_read_back (userFailed : Nat → Int → Bool)
    (op : my_async_thing_op) (ec : error_code) (hs : op.state_ = State.waiting) :
    ∃ e s, posted (op.call userFailed ec).2 = [(e, s)] ∧
      ((e.failed userFailed = false ∧ s = false) ↔ ec = operation_aborted) ∧
      ((e.failed userFailed = true ∧ s = false) ↔
        (ec.failed userFailed = true ∧ ec ≠ operation_aborted)) ∧
      ((e.failed userFailed = false ∧ s = true) ↔ ec.failed userFailed = false) ∧
      ¬ (s = true ∧ e.failed userFailed = true) := by
  by_cases hf : ec.failed userFailed = true
  · by_cases hn : ec = operation_aborted
    · subst hn
      refine ⟨error_code.default, false, ?_, ?_⟩
      · rw [call_aborted userFailed op hs]; rfl
      · simp [default_not_failed, operation_aborted_failed]
    · refine ⟨ec, false, ?_, ?_⟩
      · rw [call_failure userFailed op ec hs hf hn]; rfl
      · simp [hf, hn]
  · have hf0 : ec.failed userFailed = false := by simpa using hf
    have hn : ec ≠ operation_aborted := by
      intro h
      rw [h, operation_aborted_failed] at hf0
      exact Bool.noConfusion hf0
    refine ⟨ec, true, ?_, ?_⟩
    · rw [call_expiry userFailed op ec hs hf0]; rfl
    · simp [hf0, hn]

theorem outcome_read_back_witness :
    ∃ e s, posted (((my_async_thing (fun _ _ => false) ⟨1, ⟨2⟩⟩ ⟨3, none⟩).1).call
        (fun _ _ => false) ⟨125, error_category.system⟩).2 = [(e, s)] ∧
      ((e.failed (fun _ _ => false) = false ∧ s = false) ↔
        (⟨125, error_category.system⟩ : error_code) = operation_aborted) ∧
      ((e.failed (fun _ _ => false) = true ∧ s = false) ↔
        (error_code.failed (fun _ _ => false) ⟨125, error_category.system⟩ = true ∧
          (⟨125, error_category.system⟩ : error_code) ≠ operation_aborted)) ∧
      ((e.failed (fun _ _ => false) = false ∧ s = true) ↔
        error_code.failed (fun _ _ => false) ⟨125, error_category.system⟩ = false) ∧
      ¬ (s = true ∧ e.failed (fun _ _ => false) = true) :=
  outcome_read_back (fun _ _ => false)
    (my_async_thing (fun _ _ => false) ⟨1, ⟨2⟩⟩ ⟨3, none⟩).1
    ⟨125, error_category.system⟩ (by decide)

/-! ## Runs -/

theorem run_cons (userFailed : Nat → Int → Bool) (op : my_async_thing_op)
    (ec : error_code) (rest : List error_code) :
    run userFailed op (ec :: rest) =
      ((run userFailed (op.call userFailed ec).1 rest).1,
       (op.call userFailed ec).2 ++ (run userFailed (op.call userFailed ec).1 rest).2) := by
  rfl

theorem run_state_waiting (userFailed : Nat → Int → Bool) (ecs : List error_code) :
    ∀ op : my_async_thing_op, op.state_ = State.waiting →
      (run userFailed op ecs).1.state_ = State.waiting := by
  induction ecs with
  | nil => intro op hs; exact hs
  | cons ec rest ih =>
    intro op _
    rw [run_cons]
    exact ih _ (call_state userFailed op ec)

theorem run_posts_waiting (userFailed : Nat → Int → Bool) (ecs : List error_code) :
    ∀ op : my_async_thing_op, op.state_ = State.waiting →
      posts (run userFailed op ecs).2 = ecs.length := by
  induction ecs with
  | nil => intro op _; rfl
  | cons ec rest ih =>
    intro op hs
    rw [run_cons, posts_append, posts_call_waiting userFailed op ec hs,
      ih _ (call_state userFailed op ec)]
    simp [Nat.add_comm]

theorem run_guards (userFailed : Nat → Int → Bool) (ecs : List error_code) :
    ∀ op : my_async_thing_op,
      (run userFailed op ecs).1.timer_wg_ = op.timer_wg_ ∧
        (run userFailed op ecs).1.wg_ = op.wg_ := by
  induction ecs with
  | nil => intro op; exact ⟨rfl, rfl⟩
  | cons ec rest ih =>
    intro op
    rw [run_cons]
    obtain ⟨h1, h2⟩ := ih (op.call userFailed ec).1
    obtain ⟨g1, g2⟩ := call_guards userFailed op ec
    exact ⟨h1.trans g1, h2.trans g2⟩

theorem construct_state (timer : steady_timer) (e : Executor) (handler : BoolHandler) :
    (my_async_thing_op.construct timer e handler).state_ = State.init := by
  rfl

/-! ## Scheduling of the notification -/

/-- C4: in a run made of the initiating invocation followed by one
wait-callback, whatever error code the callback delivers (expiry, cancellation
or another failure), the notification handler is scheduled exactly once: the
initiating invocation only starts the wait and schedules nothing, and the
callback makes exactly one post, which carries the handler given at
construction, to the executor given at construction.  The same holds for an
operation started by `my_async_thing`. -/
theorem one_post_per_run (userFailed : Nat → Int → Bool) (timer : steady_timer)
    (e : Executor) (handler : BoolHandler) (ec0 ec : error_code) :
    posts ((my_async_thing_op.construct timer e handler).call userFailed ec0).2 = 0 ∧
      posts ((((my_async_thing_op.construct timer e handler).call userFailed ec0).1).call
        userFailed ec).2 = 1 ∧
      posts (run userFailed (my_async_thing_op.construct timer e handler) [ec0, ec]).2 = 1 ∧
      posts (my_async_thing userFailed timer handler).2 = 0 ∧
      posts (((my_async_thing userFailed timer handler).1).call userFailed ec).2 = 1 ∧
      scheduled handler
        ((my_async_thing_op.construct timer e handler).call userFailed ec0).2 = 0 ∧
      scheduled handler ((((my_async_thing_op.construct timer e handler).call
        userFailed ec0).1).call userFailed ec).2 = 1 ∧
      scheduled handler
        (run userFailed (my_async_thing_op.construct timer e handler) [ec0, ec]).2 = 1 ∧
      (∃ e1 r, (run userFailed (my_async_thing_op.construct timer e handler) [ec0, ec]).2 =
        [Effect.async_wait timer, Effect.post e (some handler) e1 r]) ∧
      scheduled handler (my_async_thing userFailed timer handler).2 = 0 ∧
      scheduled handler
        (((my_async_thing userFailed timer handler).1).call userFailed ec).2 = 1 ∧
      (∃ e1 r, (my_async_thing userFailed timer handler).2 ++
          (((my_async_thing userFailed timer handler).1).call userFailed ec).2 =
        [Effect.async_wait timer,
         Effect.post (get_associated_executor handler timer.get_executor)
           (some handler) e1 r]) := by
  have hinit : ∀ (x : Executor) (c : error_code),
      (my_async_thing_op.construct timer x handler).call userFailed c =
        ({ my_async_thing_op.construct timer x handler with state_ := State.waiting },
         [Effect.async_wait timer]) := by
    intro x c
    rw [call_init userFailed _ c (construct_state timer x handler)]
    rfl
  have hcb : ∀ x : Executor, ∃ e1 r,
      (({ my_async_thing_op.construct timer x handler with
          state_ := State.waiting } : my_async_thing_op).call userFailed ec).2 =
        [Effect.post x (some handler) e1 r] := by
    intro x
    obtain ⟨e1, r, h⟩ := call_waiting_complete userFailed
      ({ my_async_thing_op.construct timer x handler with state_ := State.waiting })
      ec rfl
    exact ⟨e1, r, by rw [h]; rfl⟩
  have hadapt : my_async_thing userFailed timer handler =
      ({ my_async_thing_op.construct timer
          (get_associated_executor handler timer.get_executor) handler with
          state_ := State.waiting },
       [Effect.async_wait timer]) := by
    unfold my_async_thing
    exact hinit _ _
  obtain ⟨e1, r, h1⟩ := hcb e
  obtain ⟨e2, r2, h2⟩ := hcb (get_associated_executor handler timer.get_executor)
  have hrun : (run userFailed (my_async_thing_op.construct timer e handler) [ec0, ec]).2 =
      [Effect.async_wait timer, Effect.post e (some handler) e1 r] := by
    rw [run_cons, run_cons, hinit e ec0]
    simp only [h1]
    rfl
  refine ⟨?_, ?_, ?_, ?_, ?_, ?_, ?_, ?_, ⟨e1, r, hrun⟩, ?_, ?_, ⟨e2, r2, ?_⟩⟩
  · rw [hinit]; rfl
  · rw [hinit]; simp only [h1]; rfl
  · rw [hrun]; rfl
  · rw [hadapt]; rfl
  · rw [hadapt]; simp only [h2]; rfl
  · rw [hinit]; rfl
  · rw [hinit]; simp only [h1]; simp [scheduled]
  · rw [hrun]; simp [scheduled]
  · rw [hadapt]; rfl
  · rw [hadapt]; simp only [h2]; simp [scheduled]
  · rw [hadapt]; simp only [h2]; rfl

/-- C5: no invocation calls the handler directly.  The initiating invocation
only starts the wait, and for every delivered error code the invocation in
state `waiting` has one effect only: a post, to the executor the operation was
constructed with, of the handler with one `(ec, result)` pair appended.  For an
operation started by `my_async_thing` that executor is the associated executor
of the handler. -/
theorem completion_is_one_post (userFailed : Nat → Int → Bool) (timer : steady_timer)
    (e : Executor) (handler : BoolHandler) (ec0 ec : error_code) :
    (∀ op : my_async_thing_op, invokes (op.call userFailed ec).2 = 0) ∧
      ((my_async_thing_op.construct timer e handler).call userFailed ec0).2 =
        [Effect.async_wait timer] ∧
      (∃ e1 r, ((((my_async_thing_op.construct timer e handler).call userFailed ec0).1).call
        userFailed ec).2 = [Effect.post e (some handler) e1 r]) ∧
      (∃ e1 r, (((my_async_thing userFailed timer handler).1).call userFailed ec).2 =
        [Effect.post (get_associated_executor handler timer.get_executor)
          (some handler) e1 r]) := by
  refine ⟨?_, ?_, ?_, ?_⟩
  · intro op
    cases hs : op.state_ with
    | init => rw [call_init userFailed op ec hs]; rfl
    | waiting =>
      obtain ⟨e1, r, h⟩ := call_waiting_complete userFailed op ec hs
      rw [h]
      rfl
  · rw [call_init userFailed _ ec0 (construct_state timer e handler)]
    rfl
  · obtain ⟨e1, r, h⟩ := call_waiting_complete userFailed
      ((my_async_thing_op.construct timer e handler).call userFailed ec0).1 ec
      (call_state userFailed _ ec0)
    refine ⟨e1, r, ?_⟩
    rw [h, call_init userFailed _ ec0 (construct_state timer e handler)]
    rfl
  · obtain ⟨e1, r, h⟩ := call_waiting_complete userFailed
      (my_async_thing userFailed timer handler).1 ec (call_state userFailed _ _)
    refine ⟨e1, r, ?_⟩
    rw [h]
    unfold my_async_thing
    rw [call_init userFailed _ _ (construct_state timer _ handler)]
    rfl

/-- C6: the operation `my_async_thing` starts is bound to the executor the
handler declares as associated when it declares one, and to the executor of the
timer otherwise; `get_executor` of the operation reports that executor and the
post of the final notification goes to it. -/
theorem adapter_binds_associated_executor (userFailed : Nat → Int → Bool)
    (timer : steady_timer) (id : Nat) (declared : Executor) (ec : error_code) :
    (my_async_thing userFailed timer ⟨id, some declared⟩).1.get_executor = declared ∧
      (my_async_thing userFailed timer ⟨id, none⟩).1.get_executor = timer.get_executor ∧
      (∀ handler : BoolHandler,
        (my_async_thing userFailed timer handler).1.get_executor =
            get_associated_executor handler timer.get_executor ∧
          (my_async_thing userFailed timer handler).1.wg_ =
            executor_work_guard.make (get_associated_executor handler timer.get_executor) ∧
          ∃ e1 r, (((my_async_thing userFailed timer handler).1).call userFailed ec).2 =
            [Effect.post (my_async_thing userFailed timer handler).1.get_executor
              (some handler) e1 r]) := by
  have key : ∀ handler : BoolHandler, (my_async_thing userFailed timer handler).1 =
      { my_async_thing_op.construct timer
          (get_associated_executor handler timer.get_executor) handler with
        state_ := State.waiting } := by
    intro handler
    unfold my_async_thing
    rw [call_init userFailed _ _ (construct_state timer _ handler)]
  refine ⟨?_, ?_, ?_⟩
  · rw [key]; rfl
  · rw [key]; rfl
  · intro handler
    refine ⟨by rw [key]; rfl, by rw [key]; rfl, ?_⟩
    obtain ⟨e1, r, h⟩ := call_waiting_complete userFailed
      (my_async_thing userFailed timer handler).1 ec (call_state userFailed _ _)
    refine ⟨e1, r, ?_⟩
    rw [h, key]
    rfl

theorem run_posts_construct (userFailed : Nat → Int → Bool) (timer : steady_timer)
    (e : Executor) (handler : BoolHandler) (ecs : List error_code) :
    posts (run userFailed (my_async_thing_op.construct timer e handler) ecs).2 =
      ecs.length - 1 := by
  cases ecs with
  | nil => rfl
  | cons ec rest =>
    rw [run_cons, posts_append, run_posts_waiting userFailed rest _ (call_state userFailed _ ec),
      call_init userFailed _ ec (construct_state timer e handler)]
    simp [posts, posted]

/-- C8, as stated, fails: the operation has no state after `waiting`.  After the
completing invocation `state_` is still `waiting`, and one more invocation runs
`complete` again and posts a second time, now with the moved-from handler. -/
theorem second_callback_posts_again :
    (run (fun _ _ => false) (my_async_thing_op.construct ⟨1, ⟨2⟩⟩ ⟨2⟩ ⟨3, none⟩)
        [error_code.default, error_code.default]).1.state_ = State.waiting ∧
      (run (fun _ _ => false) (my_async_thing_op.construct ⟨1, ⟨2⟩⟩ ⟨2⟩ ⟨3, none⟩)
        [error_code.default, error_code.default, error_code.default]).2 =
        [Effect.async_wait ⟨1, ⟨2⟩⟩,
         Effect.post ⟨2⟩ (some ⟨3, none⟩) error_code.default true,
         Effect.post ⟨2⟩ none error_code.default true] ∧
      ¬ posts (run (fun _ _ => false) (my_async_thing_op.construct ⟨1, ⟨2⟩⟩ ⟨2⟩ ⟨3, none⟩)
        [error_code.default, error_code.default, error_code.default]).2 ≤ 1 := by
  decide

/-- C8, amended: in every sequence of invocations made of the initiating
invocation followed by at most one wait-callback the handler is posted at most
once.  In every sequence the state is `waiting` after each invocation, so `init`
is never entered again; a sequence of `n` invocations of a fresh operation
posts `n - 1` times. -/
theorem at_most_one_post_up_to_one_callback (userFailed : Nat → Int → Bool)
    (timer : steady_timer) (e : Executor) (handler : BoolHandler)
    (ecs : List error_code) (hlen : ecs.length ≤ 2) :
    posts (run userFailed (my_async_thing_op.construct timer e handler) ecs).2 ≤ 1 ∧
      (∀ all : List error_code,
        posts (run userFailed (my_async_thing_op.construct timer e handler) all).2 =
          all.length - 1) ∧
      (∀ (op : my_async_thing_op) (ec : error_code) (rest : List error_code),
        (run userFailed op (ec :: rest)).1.state_ = State.waiting) := by
  refine ⟨?_, ?_, ?_⟩
  · rw [run_posts_construct]
    omega
  · intro all
    exact run_posts_construct userFailed timer e handler all
  · intro op ec rest
    rw [run_cons]
    exact run_state_waiting userFailed rest _ (call_state userFailed op ec)

theorem at_most_one_post_up_to_one_callback_witness :
    posts (run (fun _ _ => false) (my_async_thing_op.construct ⟨1, ⟨2⟩⟩ ⟨2⟩ ⟨3, none⟩)
      [error_code.default, operation_aborted]).2 ≤ 1 :=
  (at_most_one_post_up_to_one_callback (fun _ _ => false) ⟨1, ⟨2⟩⟩ ⟨2⟩ ⟨3, none⟩
    [error_code.default, operation_aborted] (by decide)).1

/-! ## Waits on the timer -/

/-- C9: an invocation in state `init` starts one wait on the timer and moves to
`waiting`, whatever error code it is given; an invocation in state `waiting`
starts none, whatever the outcome; so a run of the initiating invocation and
one wait-callback starts exactly one wait. -/
theorem one_wait_per_run (userFailed : Nat → Int → Bool) (op : my_async_thing_op)
    (ec0 ec : error_code) (hs : op.state_ = State.init) :
    (op.call userFailed ec0).2 = [Effect.async_wait op.timer_] ∧
      (op.call userFailed ec0).1.state_ = State.waiting ∧
      waits (((op.call userFailed ec0).1).call userFailed ec).2 = 0 ∧
      waits (run userFailed op [ec0, ec]).2 = 1 ∧
      (∀ w : my_async_thing_op, w.state_ = State.waiting →
        waits (w.call userFailed ec).2 = 0) ∧
      (∀ (timer : steady_timer) (handler : BoolHandler),
        (my_async_thing userFailed timer handler).2 = [Effect.async_wait timer] ∧
          (my_async_thing userFailed timer handler).1.state_ = State.waiting) := by
  have hw : ∀ w : my_async_thing_op, w.state_ = State.waiting →
      waits (w.call userFailed ec).2 = 0 := by
    intro w hws
    obtain ⟨e1, r, h⟩ := call_waiting_complete userFailed w ec hws
    rw [h]
    rfl
  have h0 : (op.call userFailed ec0).2 = [Effect.async_wait op.timer_] := by
    rw [call_init userFailed op ec0 hs]
  have h1 := hw (op.call userFailed ec0).1 (call_state userFailed op ec0)
  refine ⟨h0, call_state userFailed op ec0, h1, ?_, hw, ?_⟩
  · rw [run_cons, run_cons, waits_append, waits_append, h1, h0]
    rfl
  · intro timer handler
    refine ⟨?_, call_state userFailed _ _⟩
    unfold my_async_thing
    rw [call_init userFailed _ _ (construct_state timer _ handler)]
    rfl

theorem one_wait_per_run_witness :
    waits (run (fun _ _ => false) (my_async_thing_op.construct ⟨1, ⟨2⟩⟩ ⟨4⟩ ⟨3, some ⟨4⟩⟩)
      [⟨7, error_category.user 1⟩, operation_aborted]).2 = 1 :=
  (one_wait_per_run (fun _ _ => false)
    (my_async_thing_op.construct ⟨1, ⟨2⟩⟩ ⟨4⟩ ⟨3, some ⟨4⟩⟩)
    ⟨7, error_category.user 1⟩ operation_aborted (by decide)).2.2.2.1

/-! ## Work guards -/

/-- C10: the constructor acquires both work guards, the one on the executor of
the timer and the one on the executor passed in; no invocation and no call of
`complete` changes either of them, so after every sequence of invocations, and
in particular where the notification is posted, both guards still own their
work and are bound to the same executors. -/
theorem guards_held_throughout (userFailed : Nat → Int → Bool) (timer : steady_timer)
    (e : Executor) (handler : BoolHandler) (ecs : List error_code) :
    (my_async_thing_op.construct timer e handler).timer_wg_ =
        { executor_ := timer.get_executor, owns_ := true } ∧
      (my_async_thing_op.construct timer e handler).wg_ =
        { executor_ := e, owns_ := true } ∧
      (∀ (op : my_async_thing_op) (ec : error_code),
        (op.call userFailed ec).1.timer_wg_ = op.timer_wg_ ∧
          (op.call userFailed ec).1.wg_ = op.wg_) ∧
      (∀ (op : my_async_thing_op) (ec : error_code) (r : Bool),
        (op.complete ec r).1.timer_wg_ = op.timer_wg_ ∧
          (op.complete ec r).1.wg_ = op.wg_) ∧
      (run userFailed (my_async_thing_op.construct timer e handler) ecs).1.timer_wg_ =
        { executor_ := timer.get_executor, owns_ := true } ∧
      (run userFailed (my_async_thing_op.construct timer e handler) ecs).1.wg_ =
        { executor_ := e, owns_ := true } := by
  obtain ⟨h1, h2⟩ := run_guards userFailed ecs (my_async_thing_op.construct timer e handler)
  refine ⟨rfl, rfl, ?_, ?_, ?_, ?_⟩
  · intro op ec
    exact call_guards userFailed op ec
  · intro op ec r
    exact ⟨rfl, rfl⟩
  · rw [h1]; rfl
  · rw [h2]; rfl

end AsyncThing
